import Mathlib

/-!
# Verification of the image-to-code refinement pipeline

Shallow embedding of the core logic of `src/app-chat-exp.py`: the four-stage
Describe → Refine-Description → Generate-HTML → Refine-HTML pipeline, the
follow-up chat-turn refinement, and the Streamlit session state
(`refined_html`, `chat_history`) they mutate.

The external generative model is modelled as a function from a prompt and an
optional image attachment to either a returned text (`Except.ok`) or a raised
failure (`Except.error`), mirroring `send_message_to_model`.  The surrounding
`try/except` of `main` means a raised failure leaves the session state exactly
as it was at the moment of the raise.
-/

namespace ImageToCode

/-- The framework constant of the source: `framework = "Regular CSS"`. -/
def framework : String := "Regular CSS"

/-- One call to `send_message_to_model`: the prompt text and the optional
image attachment (`image_path`), recorded for trace-level properties. -/
structure ModelCall where
  prompt : String
  image : Option String
  deriving Repr, DecidableEq

/-- The external model capability: a (stub) function from prompt and optional
image to either returned text or a raised failure. -/
def ModelFn : Type := String → Option String → Except Unit String

/-- Streamlit session state as used by `main`:
the `refined_html` and `chat_history` entries of `st.session_state`.
Both are initialized empty (lines 81–84 of the source). -/
structure SessionState where
  refined_html : String
  chat_history : List (String × String)
  deriving Repr, DecidableEq

/-- The freshly initialized session state: empty HTML, empty history. -/
def initState : SessionState := { refined_html := "", chat_history := [] }

/-- Stage-1 prompt (line 89 of the source), a fixed string. -/
def descPrompt : String :=
  "Describe this UI in accurate details. When you reference a UI element put its name and bounding box in the format: [object name (y_min, x_min, y_max, x_max)]. Also Describe the color of the elements."

/-- Stage-2 prompt (line 94): embeds the stage-1 description verbatim. -/
def refineDescPrompt (description : String) : String :=
  "Compare the described UI elements with the provided image and identify any missing elements or inaccuracies. Also Describe the color of the elements. Provide a refined and accurate description of the UI elements based on this comparison. Here is the initial description: " ++ description

/-- Stage-3 prompt (line 99): embeds the refined description verbatim. -/
def htmlPrompt (refined_description : String) : String :=
  "Create an HTML file based on the following UI description, using the UI elements described in the previous response. Include " ++ framework ++ " CSS within the HTML file to style the elements. Make sure the colors used are the same as the original UI. The UI needs to be responsive and mobile-first, matching the original UI as closely as possible. Do not include any explanations or comments. Avoid using ```html. and ``` at the end. ONLY return the HTML code with inline CSS. Here is the refined description: " ++ refined_description

/-- Stage-4 prompt (line 103): embeds the initial HTML verbatim. -/
def refineHtmlPrompt (initial_html : String) : String :=
  "Validate the following HTML code based on the UI description and image and provide a refined version of the HTML code with " ++ framework ++ " CSS that improves accuracy, responsiveness, and adherence to the original design. ONLY return the refined HTML code with inline CSS. Avoid using ```html. and ``` at the end. Here is the initial HTML: " ++ initial_html

/-- Follow-up prompt (line 121): embeds the current HTML and the user request
verbatim. -/
def followupPrompt (current_html user_input : String) : String :=
  "Here is the current HTML code:\n```html\n" ++ current_html ++ "\n```\n\nUser request: " ++ user_input ++ "\n\nBased on this request, generate the updated HTML code. Remember to ONLY return the refined HTML code with inline " ++ framework ++ " CSS. Avoid using ```html. and ``` at the end."

/-- The "Code UI" pipeline (lines 87–105): four strictly sequential model
calls, each attaching the uploaded image.  A raised failure at any stage
propagates to the `try/except` of `main`, leaving the session state unchanged;
only after a successful stage 4 are `refined_html` overwritten and a single
`("Initial HTML Code", refined_html)` entry appended to `chat_history`.
Returns the resulting state and the trace of calls actually issued. -/
def runPipeline (m : ModelFn) (img : String) (s : SessionState) :
    SessionState × List ModelCall :=
  let c1 : ModelCall := ⟨descPrompt, some img⟩
  match m c1.prompt c1.image with
  | .error _ => (s, [c1])
  | .ok description =>
    let c2 : ModelCall := ⟨refineDescPrompt description, some img⟩
    match m c2.prompt c2.image with
    | .error _ => (s, [c1, c2])
    | .ok refined_description =>
      let c3 : ModelCall := ⟨htmlPrompt refined_description, some img⟩
      match m c3.prompt c3.image with
      | .error _ => (s, [c1, c2, c3])
      | .ok initial_html =>
        let c4 : ModelCall := ⟨refineHtmlPrompt initial_html, some img⟩
        match m c4.prompt c4.image with
        | .error _ => (s, [c1, c2, c3, c4])
        | .ok refined_html =>
          ({ refined_html := refined_html,
             chat_history :=
               s.chat_history ++ [("Initial HTML Code", refined_html)] },
           [c1, c2, c3, c4])

/-- The follow-up chat turn (lines 113–126): the `("user", user_input)` entry
is appended before the model call (line 115); the call attaches no image
(line 122).  On success `refined_html` is overwritten and
`("assistant", updated_html)` appended; a raised failure propagates to the
outer `try/except`, so the optimistic user entry remains and nothing else
changes.  Returns the resulting state and the trace of calls issued. -/
def runFollowup (m : ModelFn) (user_input : String) (s : SessionState) :
    SessionState × List ModelCall :=
  let s1 : SessionState :=
    { s with chat_history := s.chat_history ++ [("user", user_input)] }
  let c : ModelCall := ⟨followupPrompt s.refined_html user_input, none⟩
  match m c.prompt c.image with
  | .error _ => (s1, [c])
  | .ok updated_html =>
    ({ refined_html := updated_html,
       chat_history := s1.chat_history ++ [("assistant", updated_html)] },
     [c])

/-- One user-triggered operation of a session: a "Code UI" pipeline run or a
follow-up chat turn (the execution model is synchronous and request-driven,
so a session is a sequence of such operations). -/
inductive Op where
  | pipeline (m : ModelFn) (img : String)
  | followup (m : ModelFn) (input : String)

/-- The state transition of one operation. -/
def applyOp (s : SessionState) : Op → SessionState
  | .pipeline m img => (runPipeline m img s).1
  | .followup m input => (runFollowup m input s).1

/-- A whole session: fold the operations over a starting state. -/
def runOps (s : SessionState) : List Op → SessionState
  | [] => s
  | op :: ops => runOps (applyOp s op) ops

/-- `p` contains `x` verbatim as a contiguous substring. -/
def ContainsText (p x : String) : Prop := ∃ a b, p = a ++ x ++ b

/-- Roles whose history entries carry HTML produced by the model:
the `"Initial HTML Code"` label of the pipeline and the `"assistant"`
label of the follow-up turn. -/
def isHtmlRole (r : String) : Bool :=
  r == "assistant" || r == "Initial HTML Code"

/-- The content of the most recent HTML-carrying entry of a history,
if any. -/
def lastHtmlContent (h : List (String × String)) : Option String :=
  (h.filter (fun e => isHtmlRole e.1)).getLast?.map (fun e => e.2)

/-- The session-state invariant relating `refined_html` to the history:
`refined_html` equals the content of the most recent HTML-carrying entry,
and is empty while no such entry exists. -/
def htmlMatchesHistory (s : SessionState) : Prop :=
  match lastHtmlContent s.chat_history with
  | some c => s.refined_html = c
  | none => s.refined_html = ""

/-- The content of the most recent entry whose role is literally
`"assistant"`, if any (the strict reading of the spec invariant). -/
def lastAssistantContent (h : List (String × String)) : Option String :=
  (h.filter (fun e => e.1 == "assistant")).getLast?.map (fun e => e.2)

/-- Deterministic stub of the §8 Scenario A: fixed replies `"D"`, `"RD"`,
`"<html>A</html>"`, `"<html>B</html>"` for the four stage prompts. -/
def stubA : ModelFn := fun p _ =>
  if p = descPrompt then .ok "D"
  else if p = refineDescPrompt "D" then .ok "RD"
  else if p = htmlPrompt "RD" then .ok "<html>A</html>"
  else .ok "<html>B</html>"

/-- Deterministic stub of the §8 Scenario C: stages 1 and 2 succeed,
stage 3 (and anything after) raises. -/
def stubC : ModelFn := fun p _ =>
  if p = descPrompt then .ok "D"
  else if p = refineDescPrompt "D" then .ok "RD"
  else .error ()

/-- A stub that always replies with the fixed text `c`. -/
def constStub (c : String) : ModelFn := fun _ _ => .ok c

/-- A stub whose every call raises. -/
def failStub : ModelFn := fun _ _ => .error ()

/-- A deterministic stub that replies with its own prompt: a deterministic
function of its input whose reply depends on the embedded HTML. -/
def echoStub : ModelFn := fun p _ => .ok p

set_option maxRecDepth 10000

/-- C1: for every successful four-stage pipeline run, `refined_html`
afterwards equals exactly the stage-4 reply, verbatim, and exactly one
history entry with that content is appended by the run. -/
theorem pipeline_commits_stage4_verbatim (m : ModelFn) (img : String)
    (s : SessionState) (d rd ih rh : String)
    (h1 : m descPrompt (some img) = .ok d)
    (h2 : m (refineDescPrompt d) (some img) = .ok rd)
    (h3 : m (htmlPrompt rd) (some img) = .ok ih)
    (h4 : m (refineHtmlPrompt ih) (some img) = .ok rh) :
    (runPipeline m img s).1.refined_html = rh ∧
    (runPipeline m img s).1.chat_history =
      s.chat_history ++ [("Initial HTML Code", rh)] := by
  simp [runPipeline, h1, h2, h3, h4]

/-- C1 witness: Scenario A with the fixed stub, starting from the fresh
session state. -/
theorem pipeline_commits_stage4_verbatim_witness :
    (runPipeline stubA "I" initState).1.refined_html = "<html>B</html>" ∧
    (runPipeline stubA "I" initState).1.chat_history =
      initState.chat_history ++ [("Initial HTML Code", "<html>B</html>")] :=
  pipeline_commits_stage4_verbatim stubA "I" initState
    "D" "RD" "<html>A</html>" "<html>B</html>"
    rfl rfl rfl rfl

/-- C2 counterexample: a follow-up submitted on the fresh session state
(`refined_html` empty, no pipeline run yet) is not rejected and is not a
no-op: the state is mutated and an assistant entry is appended. -/
theorem followup_on_empty_html_mutates_state :
    initState.refined_html = "" ∧
    (runFollowup (constStub "<p>x</p>") "hi" initState).1 ≠ initState ∧
    (runFollowup (constStub "<p>x</p>") "hi" initState).1.chat_history.filter
      (fun e => e.1 == "assistant") = [("assistant", "<p>x</p>")] := by
  refine ⟨rfl, ?_, rfl⟩
  intro h
  exact absurd (congrArg SessionState.chat_history h) (by decide)

/-- C2 amended: the code checks no precondition on `refined_html`: a
follow-up submitted while it is empty is processed like any other
follow-up — the user entry is appended, and on model success
`refined_html` is overwritten and an assistant entry appended. -/
theorem followup_no_emptiness_precondition (m : ModelFn) (t h : String)
    (s : SessionState) (hs : s.refined_html = "")
    (hm : m (followupPrompt "" t) none = .ok h) :
    (runFollowup m t s).1 =
      { refined_html := h,
        chat_history := s.chat_history ++ [("user", t), ("assistant", h)] } := by
  rw [← hs] at hm
  simp [runFollowup, hm]

/-- C2 amended witness: the concrete follow-up of the counterexample. -/
theorem followup_no_emptiness_precondition_witness :
    (runFollowup (constStub "<p>x</p>") "hi" initState).1 =
      { refined_html := "<p>x</p>",
        chat_history :=
          initState.chat_history ++ [("user", "hi"), ("assistant", "<p>x</p>")] } :=
  followup_no_emptiness_precondition (constStub "<p>x</p>") "hi" "<p>x</p>"
    initState rfl rfl

/-- C3: the follow-up turn appends the user entry before the model call;
on success `refined_html` is overwritten and exactly the two entries
`(user, t)`, `(assistant, h)` are appended in that order; on failure
`refined_html` is unchanged and only the orphaned user entry remains. -/
theorem followup_optimistic_echo (m : ModelFn) (t : String) (s : SessionState) :
    (∀ h, m (followupPrompt s.refined_html t) none = .ok h →
      (runFollowup m t s).1 =
        { refined_html := h,
          chat_history := s.chat_history ++ [("user", t), ("assistant", h)] }) ∧
    (∀ e, m (followupPrompt s.refined_html t) none = .error e →
      (runFollowup m t s).1 =
        { s with chat_history := s.chat_history ++ [("user", t)] }) := by
  constructor
  · intro h hm
    simp [runFollowup, hm]
  · intro e hm
    simp [runFollowup, hm]

/-- C3 witness: a successful and a failing follow-up from a state holding
the Scenario A result. -/
theorem followup_optimistic_echo_witness :
    (runFollowup (constStub "<p>x</p>") "q"
        ⟨"<html>B</html>", [("Initial HTML Code", "<html>B</html>")]⟩).1 =
      { refined_html := "<p>x</p>",
        chat_history := [("Initial HTML Code", "<html>B</html>"),
          ("user", "q"), ("assistant", "<p>x</p>")] } ∧
    (runFollowup failStub "q"
        ⟨"<html>B</html>", [("Initial HTML Code", "<html>B</html>")]⟩).1 =
      { refined_html := "<html>B</html>",
        chat_history := [("Initial HTML Code", "<html>B</html>"),
          ("user", "q")] } :=
  ⟨(followup_optimistic_echo (constStub "<p>x</p>") "q"
      ⟨"<html>B</html>", [("Initial HTML Code", "<html>B</html>")]⟩).1
      "<p>x</p>" rfl,
   (followup_optimistic_echo failStub "q"
      ⟨"<html>B</html>", [("Initial HTML Code", "<html>B</html>")]⟩).2
      () rfl⟩

/-- C4: a raised failure at any pipeline stage aborts the run there: the
remaining stages are not called (the trace stops at the failing stage) and
the session state is returned unchanged — no partial HTML committed, no
history entry appended, entries appended before the run untouched. -/
theorem pipeline_failfast (m : ModelFn) (img : String) (s : SessionState) :
    (∀ e, m descPrompt (some img) = .error e →
      runPipeline m img s = (s, [⟨descPrompt, some img⟩])) ∧
    (∀ d e, m descPrompt (some img) = .ok d →
      m (refineDescPrompt d) (some img) = .error e →
      runPipeline m img s =
        (s, [⟨descPrompt, some img⟩, ⟨refineDescPrompt d, some img⟩])) ∧
    (∀ d rd e, m descPrompt (some img) = .ok d →
      m (refineDescPrompt d) (some img) = .ok rd →
      m (htmlPrompt rd) (some img) = .error e →
      runPipeline m img s =
        (s, [⟨descPrompt, some img⟩, ⟨refineDescPrompt d, some img⟩,
          ⟨htmlPrompt rd, some img⟩])) ∧
    (∀ d rd ih e, m descPrompt (some img) = .ok d →
      m (refineDescPrompt d) (some img) = .ok rd →
      m (htmlPrompt rd) (some img) = .ok ih →
      m (refineHtmlPrompt ih) (some img) = .error e →
      runPipeline m img s =
        (s, [⟨descPrompt, some img⟩, ⟨refineDescPrompt d, some img⟩,
          ⟨htmlPrompt rd, some img⟩, ⟨refineHtmlPrompt ih, some img⟩])) := by
  refine ⟨?_, ?_, ?_, ?_⟩
  · intro e h1; simp [runPipeline, h1]
  · intro d e h1 h2; simp [runPipeline, h1, h2]
  · intro d rd e h1 h2 h3; simp [runPipeline, h1, h2, h3]
  · intro d rd ih e h1 h2 h3 h4; simp [runPipeline, h1, h2, h3, h4]

/-- C4 witness: Scenario C — the stub raises at stage 3; the state (with a
pre-existing history entry) is unchanged and only three calls were made. -/
theorem pipeline_failfast_witness :
    runPipeline stubC "I" ⟨"", [("user", "hello")]⟩ =
      (⟨"", [("user", "hello")]⟩,
        [⟨descPrompt, some "I"⟩, ⟨refineDescPrompt "D", some "I"⟩,
          ⟨htmlPrompt "RD", some "I"⟩]) :=
  (pipeline_failfast stubC "I" ⟨"", [("user", "hello")]⟩).2.2.1
    "D" "RD" () rfl rfl rfl

/-- Every single operation only ever appends to the history. -/
lemma applyOp_extends_history (s : SessionState) (op : Op) :
    ∃ tl, (applyOp s op).chat_history = s.chat_history ++ tl := by
  cases op with
  | pipeline m img =>
    cases e1 : m descPrompt (some img) with
    | error e => exact ⟨[], by simp [applyOp, runPipeline, e1]⟩
    | ok d =>
      cases e2 : m (refineDescPrompt d) (some img) with
      | error e => exact ⟨[], by simp [applyOp, runPipeline, e1, e2]⟩
      | ok rd =>
        cases e3 : m (htmlPrompt rd) (some img) with
        | error e => exact ⟨[], by simp [applyOp, runPipeline, e1, e2, e3]⟩
        | ok ih =>
          cases e4 : m (refineHtmlPrompt ih) (some img) with
          | error e => exact ⟨[], by simp [applyOp, runPipeline, e1, e2, e3, e4]⟩
          | ok rh =>
            exact ⟨[("Initial HTML Code", rh)],
              by simp [applyOp, runPipeline, e1, e2, e3, e4]⟩
  | followup m input =>
    cases e : m (followupPrompt s.refined_html input) none with
    | error err => exact ⟨[("user", input)], by simp [applyOp, runFollowup, e]⟩
    | ok h =>
      exact ⟨[("user", input), ("assistant", h)],
        by simp [applyOp, runFollowup, e]⟩

/-- A whole session only ever appends to the history. -/
lemma runOps_extends_history (s : SessionState) (ops : List Op) :
    ∃ tl, (runOps s ops).chat_history = s.chat_history ++ tl := by
  induction ops generalizing s with
  | nil => exact ⟨[], by simp [runOps]⟩
  | cons op ops ih =>
    obtain ⟨t1, h1⟩ := applyOp_extends_history s op
    obtain ⟨t2, h2⟩ := ih (applyOp s op)
    exact ⟨t1 ++ t2, by simp [runOps, h2, h1]⟩

/-- C5: the turn history is append-only across every sequence of session
operations: the later history extends the earlier one by a suffix, so its
length never decreases, and every prior entry is still there, unchanged,
at its old position. -/
theorem history_append_only (s : SessionState) (ops : List Op) :
    ∃ tl, (runOps s ops).chat_history = s.chat_history ++ tl ∧
      s.chat_history.length ≤ (runOps s ops).chat_history.length ∧
      (runOps s ops).chat_history.take s.chat_history.length = s.chat_history := by
  obtain ⟨tl, htl⟩ := runOps_extends_history s ops
  exact ⟨tl, htl, by simp [htl], by simp [htl, List.take_left]⟩

/-- C6 counterexample: after a successful pipeline run from a fresh session
(Scenario A), `refined_html` is non-empty yet the history holds no entry
whose role is literally `"assistant"`, so `refined_html` does not equal the
content of the most recent assistant-role entry — no such entry exists. -/
theorem currentHTML_strict_assistant_invariant_fails :
    lastAssistantContent (runPipeline stubA "I" initState).1.chat_history = none ∧
    (runPipeline stubA "I" initState).1.refined_html = "<html>B</html>" ∧
    lastAssistantContent (runPipeline stubA "I" initState).1.chat_history ≠
      some (runPipeline stubA "I" initState).1.refined_html := by
  refine ⟨rfl, rfl, ?_⟩
  intro h
  rw [show lastAssistantContent (runPipeline stubA "I" initState).1.chat_history
      = none from rfl] at h
  exact Option.noConfusion h

/-- One operation preserves the amended invariant. -/
lemma applyOp_preserves_htmlMatchesHistory (s : SessionState) (op : Op)
    (hs : htmlMatchesHistory s) : htmlMatchesHistory (applyOp s op) := by
  cases op with
  | pipeline m img =>
    cases e1 : m descPrompt (some img) with
    | error e => simpa [applyOp, runPipeline, e1] using hs
    | ok d =>
      cases e2 : m (refineDescPrompt d) (some img) with
      | error e => simpa [applyOp, runPipeline, e1, e2] using hs
      | ok rd =>
        cases e3 : m (htmlPrompt rd) (some img) with
        | error e => simpa [applyOp, runPipeline, e1, e2, e3] using hs
        | ok ih =>
          cases e4 : m (refineHtmlPrompt ih) (some img) with
          | error e => simpa [applyOp, runPipeline, e1, e2, e3, e4] using hs
          | ok rh =>
            simp [applyOp, runPipeline, e1, e2, e3, e4, htmlMatchesHistory,
              lastHtmlContent, isHtmlRole, List.filter_append]
  | followup m input =>
    cases e : m (followupPrompt s.refined_html input) none with
    | error err =>
      simpa [applyOp, runFollowup, e, htmlMatchesHistory, lastHtmlContent,
        isHtmlRole, List.filter_append] using hs
    | ok h =>
      simp [applyOp, runFollowup, e, htmlMatchesHistory, lastHtmlContent,
        isHtmlRole, List.filter_append]

/-- A whole session preserves the amended invariant. -/
lemma runOps_preserves_htmlMatchesHistory :
    ∀ (ops : List Op) (s : SessionState), htmlMatchesHistory s →
      htmlMatchesHistory (runOps s ops)
  | [], _, hs => hs
  | op :: ops, s, hs =>
    runOps_preserves_htmlMatchesHistory ops _
      (applyOp_preserves_htmlMatchesHistory s op hs)

/-- C6 amended: at every point between operations of a session started
fresh, `refined_html` equals the content of the most recent history entry
whose role is `"assistant"` or the assistant-equivalent label
`"Initial HTML Code"`, and is empty while no such entry exists. -/
theorem currentHTML_matches_history (ops : List Op) :
    htmlMatchesHistory (runOps initState ops) :=
  runOps_preserves_htmlMatchesHistory ops initState
    (by simp [htmlMatchesHistory, lastHtmlContent, initState])

/-- C7: model-call construction — once stages 1–3 have replied, the run
issues exactly the four stage calls in order, each attaching the uploaded
image, and each prompt of stages 2–4 literally contains the previous
reply as a substring; the follow-up turn issues exactly one call whose
prompt embeds the current HTML and the request verbatim and which attaches
no image. -/
theorem model_call_construction (m : ModelFn) (img t : String) (s : SessionState) :
    (∀ d rd ih, m descPrompt (some img) = .ok d →
      m (refineDescPrompt d) (some img) = .ok rd →
      m (htmlPrompt rd) (some img) = .ok ih →
      (runPipeline m img s).2 =
        [⟨descPrompt, some img⟩, ⟨refineDescPrompt d, some img⟩,
          ⟨htmlPrompt rd, some img⟩, ⟨refineHtmlPrompt ih, some img⟩] ∧
      ContainsText (refineDescPrompt d) d ∧
      ContainsText (htmlPrompt rd) rd ∧
      ContainsText (refineHtmlPrompt ih) ih ∧
      ∀ c ∈ (runPipeline m img s).2, c.image = some img) ∧
    ((runFollowup m t s).2 = [⟨followupPrompt s.refined_html t, none⟩] ∧
      ContainsText (followupPrompt s.refined_html t) s.refined_html ∧
      ContainsText (followupPrompt s.refined_html t) t ∧
      ∀ c ∈ (runFollowup m t s).2, c.image = none) := by
  constructor
  · intro d rd ih h1 h2 h3
    have htrace : (runPipeline m img s).2 =
        [⟨descPrompt, some img⟩, ⟨refineDescPrompt d, some img⟩,
          ⟨htmlPrompt rd, some img⟩, ⟨refineHtmlPrompt ih, some img⟩] := by
      cases e4 : m (refineHtmlPrompt ih) (some img) with
      | error e => simp [runPipeline, h1, h2, h3, e4]
      | ok rh => simp [runPipeline, h1, h2, h3, e4]
    refine ⟨htrace,
      ⟨"Compare the described UI elements with the provided image and identify any missing elements or inaccuracies. Also Describe the color of the elements. Provide a refined and accurate description of the UI elements based on this comparison. Here is the initial description: ",
        "", by simp [refineDescPrompt]⟩,
      ⟨"Create an HTML file based on the following UI description, using the UI elements described in the previous response. Include " ++ framework ++ " CSS within the HTML file to style the elements. Make sure the colors used are the same as the original UI. The UI needs to be responsive and mobile-first, matching the original UI as closely as possible. Do not include any explanations or comments. Avoid using ```html. and ``` at the end. ONLY return the HTML code with inline CSS. Here is the refined description: ",
        "", by simp [htmlPrompt]⟩,
      ⟨"Validate the following HTML code based on the UI description and image and provide a refined version of the HTML code with " ++ framework ++ " CSS that improves accuracy, responsiveness, and adherence to the original design. ONLY return the refined HTML code with inline CSS. Avoid using ```html. and ``` at the end. Here is the initial HTML: ",
        "", by simp [refineHtmlPrompt]⟩, ?_⟩
    intro c hc
    rw [htrace] at hc
    simp only [List.mem_cons, List.not_mem_nil, or_false] at hc
    rcases hc with rfl | rfl | rfl | rfl <;> rfl
  · have htrace : (runFollowup m t s).2 =
        [⟨followupPrompt s.refined_html t, none⟩] := by
      cases e : m (followupPrompt s.refined_html t) none with
      | error err => simp [runFollowup, e]
      | ok h => simp [runFollowup, e]
    refine ⟨htrace,
      ⟨"Here is the current HTML code:\n```html\n",
        "\n```\n\nUser request: " ++ t ++ "\n\nBased on this request, generate the updated HTML code. Remember to ONLY return the refined HTML code with inline " ++ framework ++ " CSS. Avoid using ```html. and ``` at the end.",
        by simp [followupPrompt, String.append_assoc]⟩,
      ⟨"Here is the current HTML code:\n```html\n" ++ s.refined_html ++ "\n```\n\nUser request: ",
        "\n\nBased on this request, generate the updated HTML code. Remember to ONLY return the refined HTML code with inline " ++ framework ++ " CSS. Avoid using ```html. and ``` at the end.",
        by simp [followupPrompt, String.append_assoc]⟩, ?_⟩
    intro c hc
    rw [htrace] at hc
    simp only [List.mem_cons, List.not_mem_nil, or_false] at hc
    rcases hc with rfl
    rfl

/-- C7 witness: the Scenario A stub issues exactly the four stage calls,
image attached on every one. -/
theorem model_call_construction_witness :
    (runPipeline stubA "I" initState).2 =
      [⟨descPrompt, some "I"⟩, ⟨refineDescPrompt "D", some "I"⟩,
        ⟨htmlPrompt "RD", some "I"⟩,
        ⟨refineHtmlPrompt "<html>A</html>", some "I"⟩] :=
  ((model_call_construction stubA "I" "t" initState).1
    "D" "RD" "<html>A</html>" rfl rfl rfl).1

/-- C8 counterexample: with the deterministic `echoStub` (a function of its
input), resending the same follow-up text `"t"` does not reproduce the same
`refined_html`: the second prompt embeds the first reply instead of the
original HTML, so the second reply differs. -/
theorem followup_resend_not_idempotent :
    ((runFollowup echoStub "t" ((runFollowup echoStub "t"
        ⟨"A", []⟩).1)).1).refined_html ≠
      ((runFollowup echoStub "t" ⟨"A", []⟩).1).refined_html := by
  decide

/-- C8 amended: resending the same follow-up text reproduces the same
`refined_html` — and appends exactly one `(user, t)` and one
`(assistant, h)` pair — when the deterministic stub replies to the second
prompt (which embeds the first reply `h`) again with `h`; in particular for
any stub constant in the embedded HTML. -/
theorem followup_resend_idempotent_for_fixedpoint (m : ModelFn) (t : String)
    (s : SessionState) (h : String)
    (h1 : m (followupPrompt s.refined_html t) none = .ok h)
    (h2 : m (followupPrompt h t) none = .ok h) :
    (runFollowup m t (runFollowup m t s).1).1.refined_html =
      (runFollowup m t s).1.refined_html ∧
    (runFollowup m t (runFollowup m t s).1).1.chat_history =
      (runFollowup m t s).1.chat_history ++ [("user", t), ("assistant", h)] ∧
    (runFollowup m t s).1.refined_html = h := by
  simp [runFollowup, h1, h2]

/-- C8 amended witness: a constant stub resent from a concrete state. -/
theorem followup_resend_idempotent_for_fixedpoint_witness :
    (runFollowup (constStub "<p>r</p>") "t"
        (runFollowup (constStub "<p>r</p>") "t" ⟨"A", []⟩).1).1.refined_html =
      (runFollowup (constStub "<p>r</p>") "t" ⟨"A", []⟩).1.refined_html ∧
    (runFollowup (constStub "<p>r</p>") "t"
        (runFollowup (constStub "<p>r</p>") "t" ⟨"A", []⟩).1).1.chat_history =
      (runFollowup (constStub "<p>r</p>") "t" ⟨"A", []⟩).1.chat_history ++
        [("user", "t"), ("assistant", "<p>r</p>")] ∧
    (runFollowup (constStub "<p>r</p>") "t" ⟨"A", []⟩).1.refined_html =
      "<p>r</p>" :=
  followup_resend_idempotent_for_fixedpoint (constStub "<p>r</p>") "t"
    ⟨"A", []⟩ "<p>r</p>" rfl rfl

/-- C9 counterexample: a stub whose every stage replies with the empty
string does not make the run a pipeline-wide failure: the run completes,
the empty string is committed to `refined_html` (overwriting the previous
value `"X"`) and a history entry is appended. -/
theorem pipeline_empty_output_committed :
    (runPipeline (constStub "") "I" ⟨"X", [("Initial HTML Code", "X")]⟩).1 =
      { refined_html := "",
        chat_history := [("Initial HTML Code", "X"),
          ("Initial HTML Code", "")] } := by
  decide

/-- C9 amended: an empty stage reply is not detected as a failure: when
every stage replies `""` the pipeline runs all four stages to completion,
commits `""` to `refined_html` and appends the history entry; only raised
failures abort a run. -/
theorem pipeline_empty_outputs_run_to_completion (m : ModelFn) (img : String)
    (s : SessionState)
    (h1 : m descPrompt (some img) = .ok "")
    (h2 : m (refineDescPrompt "") (some img) = .ok "")
    (h3 : m (htmlPrompt "") (some img) = .ok "")
    (h4 : m (refineHtmlPrompt "") (some img) = .ok "") :
    (runPipeline m img s).1.refined_html = "" ∧
    (runPipeline m img s).1.chat_history =
      s.chat_history ++ [("Initial HTML Code", "")] ∧
    (runPipeline m img s).2.length = 4 := by
  simp [runPipeline, h1, h2, h3, h4]

/-- C9 amended witness: the all-empty stub from the counterexample state. -/
theorem pipeline_empty_outputs_run_to_completion_witness :
    (runPipeline (constStub "") "I"
        ⟨"X", [("Initial HTML Code", "X")]⟩).1.refined_html = "" ∧
    (runPipeline (constStub "") "I"
        ⟨"X", [("Initial HTML Code", "X")]⟩).1.chat_history =
      [("Initial HTML Code", "X")] ++ [("Initial HTML Code", "")] ∧
    (runPipeline (constStub "") "I"
        ⟨"X", [("Initial HTML Code", "X")]⟩).2.length = 4 :=
  pipeline_empty_outputs_run_to_completion (constStub "") "I"
    ⟨"X", [("Initial HTML Code", "X")]⟩ rfl rfl rfl rfl

/-- C10: a successful pipeline run appends its single entry under the
literal role label `"Initial HTML Code"`, which differs from
`"assistant"` — the run adds no assistant-role entry — while a successful
follow-up appends entries labelled `"user"` and `"assistant"`.  Hence a
pipeline run from a history with no assistant entry leaves it with none. -/
theorem pipeline_role_label (m : ModelFn) (img t : String) (s : SessionState) :
    (∀ d rd ih rh, m descPrompt (some img) = .ok d →
      m (refineDescPrompt d) (some img) = .ok rd →
      m (htmlPrompt rd) (some img) = .ok ih →
      m (refineHtmlPrompt ih) (some img) = .ok rh →
      (runPipeline m img s).1.chat_history =
        s.chat_history ++ [("Initial HTML Code", rh)] ∧
      ("Initial HTML Code" : String) ≠ "assistant" ∧
      (runPipeline m img s).1.chat_history.filter (fun e => e.1 == "assistant") =
        s.chat_history.filter (fun e => e.1 == "assistant")) ∧
    (∀ h, m (followupPrompt s.refined_html t) none = .ok h →
      (runFollowup m t s).1.chat_history =
        s.chat_history ++ [("user", t), ("assistant", h)]) := by
  constructor
  · intro d rd ih rh h1 h2 h3 h4
    refine ⟨by simp [runPipeline, h1, h2, h3, h4], by decide, ?_⟩
    simp [runPipeline, h1, h2, h3, h4, List.filter_append]
  · intro h hm
    simp [runFollowup, hm]

/-- C10 witness: Scenario A from the fresh session — the single appended
entry is labelled `"Initial HTML Code"` and the history holds no
assistant-role entry. -/
theorem pipeline_role_label_witness :
    (runPipeline stubA "I" initState).1.chat_history =
      initState.chat_history ++ [("Initial HTML Code", "<html>B</html>")] ∧
    ("Initial HTML Code" : String) ≠ "assistant" ∧
    (runPipeline stubA "I" initState).1.chat_history.filter
        (fun e => e.1 == "assistant") =
      initState.chat_history.filter (fun e => e.1 == "assistant") :=
  (pipeline_role_label stubA "I" "t" initState).1
    "D" "RD" "<html>A</html>" "<html>B</html>" rfl rfl rfl rfl

end ImageToCode
